import Mathlib

/-!
Verification of the sentiment-analysis core of the FAD repository
(`src/modules/sentiment_analyzer.py`, `src/main.py`, `src/config.py`),
shallowly embedded in Lean 4.  Python floats are modelled by exact
rationals, Python strings by `String` / lists of `Char`, pandas
DataFrames of labeled reviews by lists, and values that may be
non-strings (None/NaN) by an explicit sum type.
-/

namespace FAD

/-- Sentiment label, one of the three string labels
`'Positive' / 'Negative' / 'Neutral'` produced in `main.py`. -/
inductive Label where
  | Positive
  | Negative
  | Neutral
deriving DecidableEq

/-- A Python value flowing into a text field: either an actual string or a
non-string (None, NaN, a number, ...).  `analyze_sentiment` and the
ground-truth test in `compute_classification_metrics` only distinguish
these two cases (`isinstance(text, str)`). -/
inductive PyText where
  | ofStr (s : String)
  | nonStr
deriving DecidableEq

/-- `NEGATIVE_KEYWORDS` from `src/modules/sentiment_analyzer.py`. -/
def NEGATIVE_KEYWORDS : List String :=
  ["scam", "scum", "useless", "fraud", "fake", "deceptive", "ripoff",
   "unresponsive", "broken", "glitch", "buggy", "crash", "malware",
   "phishing", "steal", "stolen", "lie", "lying", "cheat", "cheating",
   "misleading", "unreliable", "waste of time", "terrible", "horrible",
   "worst", "bad experience", "do not install", "uninstall", "delete",
   "warning", "beware", "deceitful", "untrustworthy"]

/-- Does the character list start with the given needle?
(Used to model Python's `in` substring test.) -/
def charsStartWith : List Char → List Char → Bool
  | _, [] => true
  | [], _ :: _ => false
  | a :: as, b :: bs => a == b && charsStartWith as bs

/-- Python substring containment `needle in hay` on character lists. -/
def charsContain : List Char → List Char → Bool
  | [], needle => needle.isEmpty
  | a :: as, needle => charsStartWith (a :: as) needle || charsContain as needle

/-- Python `text.lower()`, character-wise over the string's characters. -/
def lowerChars (s : String) : List Char := s.toList.map Char.toLower

/-- The keyword test performed both by `analyze_sentiment` and by the
`gt_negative` helper in `compute_classification_metrics`:
lower-case the text, then check whether any curated keyword occurs as a
substring. -/
def containsNegativeKeyword (s : String) : Bool :=
  NEGATIVE_KEYWORDS.any (fun k => charsContain (lowerChars s) k.toList)

/-- `analyze_sentiment` (the spec's `classify`) from
`src/modules/sentiment_analyzer.py`.  The TextBlob polarity model is an
external collaborator, passed in as the function `textblob`.  Non-string
input returns 0; text containing a curated keyword short-circuits to
-0.8 (= -4/5); otherwise the external model's polarity is returned
unmodified. -/
def analyze_sentiment (textblob : String → ℚ) : PyText → ℚ
  | PyText.nonStr => 0
  | PyText.ofStr s =>
      if containsNegativeKeyword s then -(4/5 : ℚ) else textblob s

/-- `Config.POSITIVE_THRESHOLD` from `src/config.py` (0.1). -/
def POSITIVE_THRESHOLD : ℚ := 1/10

/-- `Config.NEGATIVE_THRESHOLD` from `src/config.py` (-0.1). -/
def NEGATIVE_THRESHOLD : ℚ := -(1/10)

/-- `Config.DEFAULT_FRAUD_THRESHOLD` from `src/config.py` (30.0). -/
def DEFAULT_FRAUD_THRESHOLD : ℚ := 30

/-- `RISK_WARNING_SHORT` from `src/config.py`. -/
def RISK_WARNING_SHORT : String :=
  "Strong indicators of potential risk identified"

/-- The label-derivation lambda of `analyze_direct` in `src/main.py`:
`'Positive' if p > POSITIVE_THRESHOLD else ('Negative' if p <
NEGATIVE_THRESHOLD else 'Neutral')`, with the two Config constants made
explicit parameters as the spec's `label` operation requires. -/
def label (polarity positive_threshold negative_threshold : ℚ) : Label :=
  if polarity > positive_threshold then Label.Positive
  else if polarity < negative_threshold then Label.Negative
  else Label.Neutral

/-- The risk decision of `analyze_direct` in `src/main.py` (lines 342-343):
`risk_detected = neg_pct > fraud_threshold` and
`risk_message = RISK_WARNING_SHORT if neg_pct > fraud_threshold else
"No risk indicators"`. -/
def assess_risk (negative_pct threshold : ℚ) : Bool × String :=
  (decide (negative_pct > threshold),
   if negative_pct > threshold then RISK_WARNING_SHORT
   else "No risk indicators")

/-- The fraud-threshold sanitisation in `search_apps_route` of
`src/main.py` (line 214): `max(1.0, min(fraud_threshold, 100.0))`. -/
def clamp_fraud_threshold (t : ℚ) : ℚ := max 1 (min t 100)

/-- A labeled review, as a row of the DataFrame consumed by
`calculate_sentiment_metrics` and `compute_classification_metrics`:
its `content` text and its predicted `sentiment` label. -/
structure LabeledReview where
  content : PyText
  sentiment : Label
deriving DecidableEq

/-- The app-details record passed to `calculate_sentiment_metrics`;
only its `score` key (the 0-5 store rating, possibly None) is read. -/
structure AppDetails where
  score : Option ℚ
deriving DecidableEq

/-- The tuple returned by `calculate_sentiment_metrics`: the three label
counts (standing for the pandas `value_counts` result) and the five
numeric outputs. -/
structure SentimentSummary where
  positive_count : ℕ
  negative_count : ℕ
  neutral_count : ℕ
  positive_pct : ℚ
  negative_pct : ℚ
  neutral_pct : ℚ
  app_rating_score : ℚ
  playstore_score : ℚ
deriving DecidableEq

/-- `sentiment_counts.get(lab, 0)`: number of rows carrying the label. -/
def countLabel (filtered_df : List LabeledReview) (lab : Label) : ℕ :=
  filtered_df.countP (fun r => r.sentiment == lab)

/-- Line 58 of `sentiment_analyzer.py`:
`(sentiment_counts.get('Positive', 0) / total_reviews) * 100 if
total_reviews > 0 else 0`. -/
def positive_pct (filtered_df : List LabeledReview) : ℚ :=
  if filtered_df.length > 0 then
    ((countLabel filtered_df Label.Positive : ℚ) / (filtered_df.length : ℚ)) * 100
  else 0

/-- Line 59 of `sentiment_analyzer.py`, analogous for `'Negative'`. -/
def negative_pct (filtered_df : List LabeledReview) : ℚ :=
  if filtered_df.length > 0 then
    ((countLabel filtered_df Label.Negative : ℚ) / (filtered_df.length : ℚ)) * 100
  else 0

/-- Line 60 of `sentiment_analyzer.py`, analogous for `'Neutral'`. -/
def neutral_pct (filtered_df : List LabeledReview) : ℚ :=
  if filtered_df.length > 0 then
    ((countLabel filtered_df Label.Neutral : ℚ) / (filtered_df.length : ℚ)) * 100
  else 0

/-- Line 63 of `sentiment_analyzer.py`:
`(app_details.get('score', 0.0)) * 20 if app_details and
app_details.get('score') is not None else 0`. -/
def playstore_score (app_details : Option AppDetails) : ℚ :=
  match app_details with
  | some d =>
      match d.score with
      | some sc => sc * 20
      | none => 0
  | none => 0

/-- Lines 66-73 of `sentiment_analyzer.py`: the composite
`app_rating_score`.  `total_sentiment_reviews` is the sum of the three
label counts; when it is positive the score is
`min(100, positive_pct + credit)` where the credit term is
`neutral_pct * (positive_pct / (positive_pct + negative_pct))` if that
denominator is positive, else 0. -/
def app_rating_score (filtered_df : List LabeledReview) : ℚ :=
  let p := positive_pct filtered_df
  let n := negative_pct filtered_df
  let u := neutral_pct filtered_df
  if countLabel filtered_df Label.Positive + countLabel filtered_df Label.Negative
      + countLabel filtered_df Label.Neutral > 0 then
    min 100 (p + (if p + n > 0 then u * (p / (p + n)) else 0))
  else 0

/-- `calculate_sentiment_metrics` from `src/modules/sentiment_analyzer.py`
(the spec's `aggregate`), assembling the returned tuple. -/
def calculate_sentiment_metrics (filtered_df : List LabeledReview)
    (app_details : Option AppDetails) : SentimentSummary :=
  { positive_count := countLabel filtered_df Label.Positive
    negative_count := countLabel filtered_df Label.Negative
    neutral_count := countLabel filtered_df Label.Neutral
    positive_pct := positive_pct filtered_df
    negative_pct := negative_pct filtered_df
    neutral_pct := neutral_pct filtered_df
    app_rating_score := app_rating_score filtered_df
    playstore_score := playstore_score app_details }

/-- `gt_negative` from `compute_classification_metrics`: the weak ground
truth — the review text (after `fillna('')`, i.e. non-strings count as
no keyword) contains a curated negative keyword. -/
def gt_negative : PyText → Bool
  | PyText.nonStr => false
  | PyText.ofStr s => containsNegativeKeyword s

/-- `tp_mask`: ground truth negative and predicted `'Negative'`. -/
def tpMask (r : LabeledReview) : Bool :=
  gt_negative r.content && (r.sentiment == Label.Negative)

/-- `tn_mask`: ground truth not negative and predicted not `'Negative'`. -/
def tnMask (r : LabeledReview) : Bool :=
  !gt_negative r.content && !(r.sentiment == Label.Negative)

/-- `fp_mask`: ground truth not negative but predicted `'Negative'`. -/
def fpMask (r : LabeledReview) : Bool :=
  !gt_negative r.content && (r.sentiment == Label.Negative)

/-- `fn_mask`: ground truth negative but predicted not `'Negative'`. -/
def fnMask (r : LabeledReview) : Bool :=
  gt_negative r.content && !(r.sentiment == Label.Negative)

/-- The fields of each example row assembled by
`compute_classification_metrics` (the `score`/`at` passthrough fields of
the source row carry no logic and are omitted from the model). -/
structure ExampleRow where
  content : PyText
  predicted : Label
  contains_negative_keyword : Bool
deriving DecidableEq

/-- The per-cell example lists of the report. -/
structure Examples where
  tp : List ExampleRow
  tn : List ExampleRow
  fp : List ExampleRow
  fn : List ExampleRow
deriving DecidableEq

/-- The confusion counts of the report. -/
structure Confusion where
  tp : ℕ
  tn : ℕ
  fp : ℕ
  fn : ℕ
deriving DecidableEq

/-- The dict returned by `compute_classification_metrics`. -/
structure ClassificationReport where
  accuracy : ℚ
  «precision» : ℚ
  «recall» : ℚ
  f1 : ℚ
  confusion : Confusion
  examples : Examples
deriving DecidableEq

/-- The all-zero report returned for a missing or empty collection (and
from the outer exception handler). -/
def zeroReport : ClassificationReport :=
  { accuracy := 0, «precision» := 0, «recall» := 0, f1 := 0
    confusion := { tp := 0, tn := 0, fp := 0, fn := 0 }
    examples := { tp := [], tn := [], fp := [], fn := [] } }

/-- The example-row projection applied to each sampled DataFrame row. -/
def exampleRowOf (r : LabeledReview) : ExampleRow :=
  { content := r.content
    predicted := r.sentiment
    contains_negative_keyword := gt_negative r.content }

/-- `filtered_df[mask].head(sample_each)` mapped to example rows: the
first `sample_each` rows matching the mask, in encounter order. -/
def exampleList (filtered_df : List LabeledReview) (mask : LabeledReview → Bool)
    (sample_each : ℕ) : List ExampleRow :=
  ((filtered_df.filter mask).take sample_each).map exampleRowOf

/-- `compute_classification_metrics` from
`src/modules/sentiment_analyzer.py` (the spec's
`estimate_classification_quality`).  `none` models a `None` DataFrame;
the source's outer `try/except` has no failing operation left in this
pure embedding, so the function is total. -/
def compute_classification_metrics (filtered_df : Option (List LabeledReview))
    (sample_each : ℕ) : ClassificationReport :=
  match filtered_df with
  | none => zeroReport
  | some l =>
    if l.isEmpty then zeroReport
    else
      let tp := l.countP tpMask
      let tn := l.countP tnMask
      let fp := l.countP fpMask
      let fn := l.countP fnMask
      let total := tp + tn + fp + fn
      let accuracy : ℚ := if total > 0 then ((tp : ℚ) + (tn : ℚ)) / (total : ℚ) else 0
      let «precision» : ℚ := if tp + fp > 0 then (tp : ℚ) / ((tp : ℚ) + (fp : ℚ)) else 0
      let «recall» : ℚ := if tp + fn > 0 then (tp : ℚ) / ((tp : ℚ) + (fn : ℚ)) else 0
      let f1 : ℚ := if «precision» + «recall» > 0 then (2 * «precision» * «recall») / («precision» + «recall») else 0
      { accuracy := accuracy
        «precision» := «precision»
        «recall» := «recall»
        f1 := f1
        confusion := { tp := tp, tn := tn, fp := fp, fn := fn }
        examples :=
          { tp := exampleList l tpMask sample_each
            tn := exampleList l tnMask sample_each
            fp := exampleList l fpMask sample_each
            fn := exampleList l fnMask sample_each } }

/-! ## Helper lemmas -/

/-- Every row carries exactly one of the three labels, so the three
label counts partition the collection. -/
theorem countLabel_partition (l : List LabeledReview) :
    countLabel l Label.Positive + countLabel l Label.Negative
      + countLabel l Label.Neutral = l.length := by
  induction l with
  | nil => simp [countLabel]
  | cons r t ih =>
    simp only [countLabel, List.countP_cons, List.length_cons] at ih ⊢
    cases hs : r.sentiment <;> simp [hs] <;> omega

/-- The four confusion masks are mutually exclusive and exhaustive. -/
theorem confusion_partition (l : List LabeledReview) :
    l.countP tpMask + l.countP tnMask + l.countP fpMask + l.countP fnMask
      = l.length := by
  induction l with
  | nil => simp
  | cons r t ih =>
    simp only [List.countP_cons, List.length_cons]
    cases hg : gt_negative r.content <;> cases hp : r.sentiment == Label.Negative <;>
      simp [tpMask, tnMask, fpMask, fnMask, hg, hp] <;> omega

/-- Each of the three percentages is nonnegative. -/
theorem pct_nonneg (l : List LabeledReview) :
    0 ≤ positive_pct l ∧ 0 ≤ negative_pct l ∧ 0 ≤ neutral_pct l := by
  refine ⟨?_, ?_, ?_⟩ <;>
    · simp only [positive_pct, negative_pct, neutral_pct]
      split <;> positivity

/-! ## Claim theorems -/

/-- Claim C1, counterexample: on the empty collection the aggregate's
`store_rating_pct` is NOT 0 regardless of input — supplying an
app-details record with score 4.5 yields 90, refuting the claim at this
concrete input. -/
theorem C1_counterexample :
    (calculate_sentiment_metrics [] (some { score := some (9/2) })).playstore_score = 90 ∧
    (calculate_sentiment_metrics [] (some { score := some (9/2) })).playstore_score ≠ 0 := by
  constructor <;> norm_num [calculate_sentiment_metrics, playstore_score]

/-- Claim C1 as amended: for the empty collection the three percentages
and the composite score are 0 with no division error (the function is
total), and `aggregate([], None)` is the all-zero summary; but
`store_rating_pct` follows the supplied app-details record even for the
empty collection — it is `score * 20` whenever a non-null score is
supplied, and 0 only when the record or its score is absent. -/
theorem C1_empty_aggregate (ad : Option AppDetails) (d : AppDetails) (sc : ℚ)
    (hd : d.score = some sc) :
    (calculate_sentiment_metrics [] ad).positive_pct = 0 ∧
    (calculate_sentiment_metrics [] ad).negative_pct = 0 ∧
    (calculate_sentiment_metrics [] ad).neutral_pct = 0 ∧
    (calculate_sentiment_metrics [] ad).app_rating_score = 0 ∧
    (calculate_sentiment_metrics [] (some d)).playstore_score = sc * 20 ∧
    calculate_sentiment_metrics [] none = ⟨0, 0, 0, 0, 0, 0, 0, 0⟩ := by
  refine ⟨rfl, rfl, rfl, rfl, ?_, rfl⟩
  simp [calculate_sentiment_metrics, playstore_score, hd]

/-- Witness for `C1_empty_aggregate` at a concrete record with score 4.5. -/
theorem C1_empty_aggregate_witness :
    (calculate_sentiment_metrics [] none).positive_pct = 0 ∧
    (calculate_sentiment_metrics [] none).negative_pct = 0 ∧
    (calculate_sentiment_metrics [] none).neutral_pct = 0 ∧
    (calculate_sentiment_metrics [] none).app_rating_score = 0 ∧
    (calculate_sentiment_metrics [] (some { score := some (9/2) })).playstore_score = (9/2) * 20 ∧
    calculate_sentiment_metrics [] none = ⟨0, 0, 0, 0, 0, 0, 0, 0⟩ :=
  C1_empty_aggregate none { score := some (9/2) } (9/2) rfl

/-- Claim C2, counterexample: no input-validation error exists in the
code.  `label` with contract-violating thresholds (negative_threshold
1/2 > positive_threshold -1/2) still computes a label; the fraud
threshold supplied to the route is silently clamped into [1, 100]
rather than rejected; and the risk decision computes a result for an
out-of-range threshold (150). -/
theorem C2_counterexample :
    label 0 (-(1/2)) (1/2) = Label.Positive ∧
    clamp_fraud_threshold 150 = 100 ∧
    clamp_fraud_threshold (-5) = 1 ∧
    assess_risk 50 150 = (false, "No risk indicators") := by
  refine ⟨?_, ?_, ?_, ?_⟩ <;>
    norm_num [label, clamp_fraud_threshold, assess_risk, min_def, max_def]

/-- Claim C2 as amended: neither operation validates its parameters.
Even when negative_threshold > positive_threshold, `label` totally
computes a label by the comparison chain (`Positive` exactly when the
polarity exceeds the positive threshold); `assess_risk` computes the
strict comparison for any threshold, including negative or >100 ones;
the only input hygiene is that the search route clamps the fraud
threshold into [1, 100] via `max(1.0, min(t, 100.0))`, which is the
identity exactly on [1, 100]. -/
theorem C2_no_validation (p pos neg t : ℚ) (hv : neg > pos) :
    (label p pos neg = Label.Positive ↔ p > pos) ∧
    1 ≤ clamp_fraud_threshold t ∧
    clamp_fraud_threshold t ≤ 100 ∧
    (clamp_fraud_threshold t = t ↔ 1 ≤ t ∧ t ≤ 100) ∧
    ((assess_risk p t).1 = true ↔ p > t) := by
  refine ⟨?_, le_max_left 1 _, ?_, ?_, ?_⟩
  · simp only [label]
    split_ifs with h1 h2 <;> simp [h1]
  · exact max_le (by norm_num) (min_le_right t 100)
  · simp only [clamp_fraud_threshold]
    constructor
    · intro hc
      rcases le_total t 100 with h100 | h100
      · rw [min_eq_left h100] at hc
        rcases le_total 1 t with h1 | h1
        · exact ⟨h1, h100⟩
        · rw [max_eq_left h1] at hc; exact ⟨le_of_eq hc, h100⟩
      · rw [min_eq_right h100, max_eq_right (by norm_num)] at hc
        constructor <;> linarith
    · rintro ⟨h1, h100⟩
      rw [min_eq_left h100, max_eq_right h1]
  · simp [assess_risk]

/-- Witness for `C2_no_validation` with contract-violating thresholds
(positive_threshold -1/2, negative_threshold 1/2) and an out-of-range
fraud threshold 150. -/
theorem C2_no_validation_witness :
    (label 0 (-(1/2)) (1/2) = Label.Positive ↔ (0:ℚ) > -(1/2)) ∧
    1 ≤ clamp_fraud_threshold 150 ∧
    clamp_fraud_threshold 150 ≤ 100 ∧
    (clamp_fraud_threshold 150 = 150 ↔ 1 ≤ (150:ℚ) ∧ (150:ℚ) ≤ 100) ∧
    ((assess_risk 0 150).1 = true ↔ (0:ℚ) > 150) :=
  C2_no_validation 0 (-(1/2)) (1/2) 150 (by norm_num)

/-- Claim C4: `classify` returns exactly -0.8 for every string whose
lower-cased form contains a curated negative keyword as a substring,
regardless of surrounding text and of the external polarity model, and
returns 0 for every non-string input. -/
theorem C4_classify (tb : String → ℚ) (s : String)
    (h : containsNegativeKeyword s = true) :
    analyze_sentiment tb (PyText.ofStr s) = -(4/5) ∧
    analyze_sentiment tb PyText.nonStr = 0 := by
  constructor
  · simp [analyze_sentiment, h]
  · rfl

/-- Witness for `C4_classify` on the spec's example text
"this is a total scam". -/
theorem C4_classify_witness :
    analyze_sentiment (fun _ => 0) (PyText.ofStr "this is a total scam") = -(4/5) ∧
    analyze_sentiment (fun _ => 0) PyText.nonStr = 0 :=
  C4_classify (fun _ => 0) "this is a total scam" (by decide)

/-- Claim C6: `assess_risk` returns `risk_detected = (negative_pct >
threshold)` with strict comparison, the fixed advisory message exactly
when the flag is true, and the fixed no-risk message otherwise; the
three concrete spec cases (45 vs 30, 20 vs 30, and the boundary
30 vs 30) evaluate as stated. -/
theorem C6_assess_risk :
    (∀ n t : ℚ, ((assess_risk n t).1 = true ↔ n > t) ∧
      ((assess_risk n t).2 = RISK_WARNING_SHORT ↔ n > t) ∧
      ((assess_risk n t).2 = "No risk indicators" ↔ ¬ n > t)) ∧
    assess_risk 45 30 = (true, RISK_WARNING_SHORT) ∧
    assess_risk 20 30 = (false, "No risk indicators") ∧
    assess_risk 30 30 = (false, "No risk indicators") := by
  refine ⟨fun n t => ⟨by simp [assess_risk], ?_, ?_⟩, ?_, ?_, ?_⟩
  · simp only [assess_risk]
    split_ifs with h <;> simp [h, RISK_WARNING_SHORT]
  · simp only [assess_risk]
    split_ifs with h <;> simp [h, RISK_WARNING_SHORT]
  all_goals norm_num [assess_risk, RISK_WARNING_SHORT]

/-- Claim C7: `label` is `Positive` iff the polarity strictly exceeds
the positive threshold, `Negative` iff it is strictly below the
negative threshold and not `Positive`, else `Neutral`; with default
thresholds (0.1, -0.1) the four concrete spec cases hold, both
boundaries being exclusive. -/
theorem C7_label :
    (∀ p pos neg : ℚ,
      (label p pos neg = Label.Positive ↔ p > pos) ∧
      (label p pos neg = Label.Negative ↔ (p < neg ∧ ¬ p > pos)) ∧
      (label p pos neg = Label.Neutral ↔ (¬ p > pos ∧ ¬ p < neg))) ∧
    label (1/2) POSITIVE_THRESHOLD NEGATIVE_THRESHOLD = Label.Positive ∧
    label (-(1/2)) POSITIVE_THRESHOLD NEGATIVE_THRESHOLD = Label.Negative ∧
    label 0 POSITIVE_THRESHOLD NEGATIVE_THRESHOLD = Label.Neutral ∧
    label (1/10) POSITIVE_THRESHOLD NEGATIVE_THRESHOLD = Label.Neutral := by
  refine ⟨fun p pos neg => ?_, ?_, ?_, ?_, ?_⟩
  · simp only [label]
    split_ifs with h1 h2 <;> simp_all
  all_goals norm_num [label, POSITIVE_THRESHOLD, NEGATIVE_THRESHOLD]

/-- Claim C3: for every non-empty labeled-review collection the three
percentages produced by the aggregate sum exactly to 100 in exact
rational arithmetic, and for the empty collection all three are 0. -/
theorem C3_pct_sum (l : List LabeledReview) (ad : Option AppDetails) (h : l ≠ []) :
    (calculate_sentiment_metrics l ad).positive_pct
      + (calculate_sentiment_metrics l ad).negative_pct
      + (calculate_sentiment_metrics l ad).neutral_pct = 100 ∧
    (calculate_sentiment_metrics [] ad).positive_pct = 0 ∧
    (calculate_sentiment_metrics [] ad).negative_pct = 0 ∧
    (calculate_sentiment_metrics [] ad).neutral_pct = 0 := by
  refine ⟨?_, rfl, rfl, rfl⟩
  have hl : 0 < l.length := List.length_pos.mpr h
  have hL : (l.length : ℚ) ≠ 0 := Nat.cast_ne_zero.mpr (Nat.pos_iff_ne_zero.mp hl)
  have hc : (countLabel l Label.Positive : ℚ) + (countLabel l Label.Negative : ℚ)
      + (countLabel l Label.Neutral : ℚ) = (l.length : ℚ) := by
    exact_mod_cast congrArg (fun n : ℕ => (n : ℚ)) (countLabel_partition l)
  show positive_pct l + negative_pct l + neutral_pct l = 100
  simp only [positive_pct, negative_pct, neutral_pct, if_pos hl]
  field_simp
  linarith [hc]

/-- Witness for `C3_pct_sum` on a one-review collection. -/
theorem C3_pct_sum_witness :
    (calculate_sentiment_metrics [{ content := PyText.nonStr, sentiment := Label.Positive }] none).positive_pct
      + (calculate_sentiment_metrics [{ content := PyText.nonStr, sentiment := Label.Positive }] none).negative_pct
      + (calculate_sentiment_metrics [{ content := PyText.nonStr, sentiment := Label.Positive }] none).neutral_pct = 100 ∧
    (calculate_sentiment_metrics [] none).positive_pct = 0 ∧
    (calculate_sentiment_metrics [] none).negative_pct = 0 ∧
    (calculate_sentiment_metrics [] none).neutral_pct = 0 :=
  C3_pct_sum [{ content := PyText.nonStr, sentiment := Label.Positive }] none (by simp)

/-- Claim C5: for every collection with at least one review the
composite score equals `min(100, positive_pct + credit)` with the
credit term `neutral_pct * (positive_pct / (positive_pct +
negative_pct))` when that denominator is positive and 0 otherwise, and
consequently the composite score lies in [0, 100]. -/
theorem C5_composite (l : List LabeledReview) (ad : Option AppDetails) (h : l ≠ []) :
    (calculate_sentiment_metrics l ad).app_rating_score =
      min 100 ((calculate_sentiment_metrics l ad).positive_pct +
        (if (calculate_sentiment_metrics l ad).positive_pct
            + (calculate_sentiment_metrics l ad).negative_pct > 0 then
          (calculate_sentiment_metrics l ad).neutral_pct *
            ((calculate_sentiment_metrics l ad).positive_pct /
              ((calculate_sentiment_metrics l ad).positive_pct
                + (calculate_sentiment_metrics l ad).negative_pct))
         else 0)) ∧
    0 ≤ (calculate_sentiment_metrics l ad).app_rating_score ∧
    (calculate_sentiment_metrics l ad).app_rating_score ≤ 100 := by
  have hl : 0 < l.length := List.length_pos.mpr h
  have hc : 0 < countLabel l Label.Positive + countLabel l Label.Negative
      + countLabel l Label.Neutral := by
    rw [countLabel_partition l]; exact hl
  obtain ⟨hp, hn, hu⟩ := pct_nonneg l
  have hcredit : 0 ≤ positive_pct l +
      (if positive_pct l + negative_pct l > 0 then
        neutral_pct l * (positive_pct l / (positive_pct l + negative_pct l)) else 0) := by
    have : 0 ≤ (if positive_pct l + negative_pct l > 0 then
        neutral_pct l * (positive_pct l / (positive_pct l + negative_pct l)) else 0) := by
      split
      · positivity
      · exact le_refl 0
    linarith
  refine ⟨?_, ?_, ?_⟩
  · show app_rating_score l = _
    simp only [app_rating_score, if_pos hc]
    rfl
  · show 0 ≤ app_rating_score l
    simp only [app_rating_score, if_pos hc]
    exact le_min (by norm_num) hcredit
  · show app_rating_score l ≤ 100
    simp only [app_rating_score, if_pos hc]
    exact min_le_left _ _

/-- Witness for `C5_composite` on a one-review collection. -/
theorem C5_composite_witness :
    (calculate_sentiment_metrics [{ content := PyText.nonStr, sentiment := Label.Neutral }] none).app_rating_score =
      min 100 ((calculate_sentiment_metrics [{ content := PyText.nonStr, sentiment := Label.Neutral }] none).positive_pct +
        (if (calculate_sentiment_metrics [{ content := PyText.nonStr, sentiment := Label.Neutral }] none).positive_pct
            + (calculate_sentiment_metrics [{ content := PyText.nonStr, sentiment := Label.Neutral }] none).negative_pct > 0 then
          (calculate_sentiment_metrics [{ content := PyText.nonStr, sentiment := Label.Neutral }] none).neutral_pct *
            ((calculate_sentiment_metrics [{ content := PyText.nonStr, sentiment := Label.Neutral }] none).positive_pct /
              ((calculate_sentiment_metrics [{ content := PyText.nonStr, sentiment := Label.Neutral }] none).positive_pct
                + (calculate_sentiment_metrics [{ content := PyText.nonStr, sentiment := Label.Neutral }] none).negative_pct))
         else 0)) ∧
    0 ≤ (calculate_sentiment_metrics [{ content := PyText.nonStr, sentiment := Label.Neutral }] none).app_rating_score ∧
    (calculate_sentiment_metrics [{ content := PyText.nonStr, sentiment := Label.Neutral }] none).app_rating_score ≤ 100 :=
  C5_composite [{ content := PyText.nonStr, sentiment := Label.Neutral }] none (by simp)

/-- Per-cell example lists never exceed the sample cap. -/
theorem exampleList_length_le (l : List LabeledReview) (mask : LabeledReview → Bool)
    (cap : ℕ) : (exampleList l mask cap).length ≤ cap := by
  simp only [exampleList, List.length_map, List.length_take]
  exact min_le_left _ _

/-- Per-cell example lists are order-preserving selections of the rows. -/
theorem exampleList_sublist (l : List LabeledReview) (mask : LabeledReview → Bool)
    (cap : ℕ) : List.Sublist (exampleList l mask cap) (l.map exampleRowOf) :=
  ((List.take_sublist _ _).trans (List.filter_sublist _)).map exampleRowOf

/-- Claim C8: the four confusion counts produced by
`compute_classification_metrics` partition the collection (they sum to
its length), and the derived metrics follow the stated formulas with
each ratio defined as 0 when its denominator is 0. -/
theorem C8_quality_report (l : List LabeledReview) (cap : ℕ) :
    ((compute_classification_metrics (some l) cap).confusion.tp
      + (compute_classification_metrics (some l) cap).confusion.tn
      + (compute_classification_metrics (some l) cap).confusion.fp
      + (compute_classification_metrics (some l) cap).confusion.fn = l.length) ∧
    ((compute_classification_metrics (some l) cap).accuracy =
      if l.length > 0 then
        (((compute_classification_metrics (some l) cap).confusion.tp : ℚ)
          + ((compute_classification_metrics (some l) cap).confusion.tn : ℚ)) / (l.length : ℚ)
      else 0) ∧
    ((compute_classification_metrics (some l) cap).«precision» =
      if (compute_classification_metrics (some l) cap).confusion.tp
          + (compute_classification_metrics (some l) cap).confusion.fp > 0 then
        ((compute_classification_metrics (some l) cap).confusion.tp : ℚ) /
          (((compute_classification_metrics (some l) cap).confusion.tp : ℚ)
            + ((compute_classification_metrics (some l) cap).confusion.fp : ℚ))
      else 0) ∧
    ((compute_classification_metrics (some l) cap).«recall» =
      if (compute_classification_metrics (some l) cap).confusion.tp
          + (compute_classification_metrics (some l) cap).confusion.fn > 0 then
        ((compute_classification_metrics (some l) cap).confusion.tp : ℚ) /
          (((compute_classification_metrics (some l) cap).confusion.tp : ℚ)
            + ((compute_classification_metrics (some l) cap).confusion.fn : ℚ))
      else 0) ∧
    ((compute_classification_metrics (some l) cap).f1 =
      if (compute_classification_metrics (some l) cap).«precision»
          + (compute_classification_metrics (some l) cap).«recall» > 0 then
        (2 * (compute_classification_metrics (some l) cap).«precision»
          * (compute_classification_metrics (some l) cap).«recall») /
          ((compute_classification_metrics (some l) cap).«precision»
            + (compute_classification_metrics (some l) cap).«recall»)
      else 0) := by
  by_cases he : l.isEmpty
  · obtain rfl : l = [] := List.isEmpty_iff.mp he
    refine ⟨rfl, rfl, rfl, rfl, ?_⟩
    norm_num [compute_classification_metrics, zeroReport]
  · have hne : l.isEmpty = false := by simpa using he
    have htot := confusion_partition l
    simp only [compute_classification_metrics, hne, Bool.false_eq_true, if_false]
    exact ⟨htot, by rw [htot], by trivial, by trivial, by trivial⟩

/-- Claim C9 helper: a row whose label was derived from its own text via
`classify` + `label` with the default thresholds can never be a false
negative — keyword-bearing text is forced to polarity -0.8 and hence
labeled `Negative`. -/
theorem fnMask_false_of_derived (tb : String → ℚ) (r : LabeledReview)
    (h : r.sentiment = label (analyze_sentiment tb r.content)
      POSITIVE_THRESHOLD NEGATIVE_THRESHOLD) :
    fnMask r = false := by
  cases hc : r.content with
  | nonStr => simp [fnMask, gt_negative, hc]
  | ofStr s =>
    by_cases hk : containsNegativeKeyword s = true
    · have hsent : r.sentiment = Label.Negative := by
        rw [h, hc]
        simp only [analyze_sentiment, hk, if_true, label]
        rw [if_neg (by norm_num [POSITIVE_THRESHOLD]),
            if_pos (by norm_num [NEGATIVE_THRESHOLD])]
      simp [fnMask, hsent]
    · simp [fnMask, gt_negative, hc, hk]

/-- Claim C9: when every review's sentiment label is derived from its
own text via `classify` and `label` with the default thresholds, the
false-negative count is 0, and recall is 1 whenever tp > 0. -/
theorem C9_recall_one (tb : String → ℚ) (l : List LabeledReview) (cap : ℕ)
    (h : ∀ r ∈ l, r.sentiment = label (analyze_sentiment tb r.content)
      POSITIVE_THRESHOLD NEGATIVE_THRESHOLD) :
    (compute_classification_metrics (some l) cap).confusion.fn = 0 ∧
    (0 < (compute_classification_metrics (some l) cap).confusion.tp →
      (compute_classification_metrics (some l) cap).«recall» = 1) := by
  have hfn : l.countP fnMask = 0 :=
    List.countP_eq_zero.mpr (fun r hr => by
      simp [fnMask_false_of_derived tb r (h r hr)])
  by_cases he : l.isEmpty
  · obtain rfl : l = [] := List.isEmpty_iff.mp he
    exact ⟨rfl, fun h0 => absurd h0 (by simp [compute_classification_metrics, zeroReport])⟩
  · have hne : l.isEmpty = false := by simpa using he
    simp only [compute_classification_metrics, hne, Bool.false_eq_true, if_false]
    refine ⟨hfn, fun htp => ?_⟩
    rw [hfn]
    have htp' : ((l.countP tpMask : ℚ)) ≠ 0 :=
      Nat.cast_ne_zero.mpr (Nat.pos_iff_ne_zero.mp htp)
    rw [if_pos (by omega : l.countP tpMask + 0 > 0)]
    rw [Nat.cast_zero, add_zero, div_self htp']

/-- Witness for `C9_recall_one`: a one-review collection whose text
contains the keyword "scam" and whose label was derived by the
classifier pipeline. -/
theorem C9_recall_one_witness :
    (compute_classification_metrics
      (some [{ content := PyText.ofStr "scam", sentiment := Label.Negative }]) 5).confusion.fn = 0 ∧
    (0 < (compute_classification_metrics
      (some [{ content := PyText.ofStr "scam", sentiment := Label.Negative }]) 5).confusion.tp →
      (compute_classification_metrics
        (some [{ content := PyText.ofStr "scam", sentiment := Label.Negative }]) 5).«recall» = 1) :=
  C9_recall_one (fun _ => 0) [{ content := PyText.ofStr "scam", sentiment := Label.Negative }] 5
    (by
      intro r hr
      simp only [List.mem_singleton] at hr
      subst hr
      have hA : analyze_sentiment (fun _ => 0) (PyText.ofStr "scam") = -(4/5) := by
        simp [analyze_sentiment, show containsNegativeKeyword "scam" = true from by decide]
      show Label.Negative = _
      rw [hA]
      simp only [label]
      rw [if_neg (by norm_num [POSITIVE_THRESHOLD]),
          if_pos (by norm_num [NEGATIVE_THRESHOLD])])

/-- Claim C10: `estimate_classification_quality` is total; a missing or
empty collection yields the fixed all-zero report (metrics 0, counts 0,
example lists empty); each per-cell example list never exceeds the
sample cap and is an order-preserving selection of the rows (first
encountered first). -/
theorem C10_robustness (l : List LabeledReview) (cap : ℕ) :
    compute_classification_metrics none cap =
      ⟨0, 0, 0, 0, ⟨0, 0, 0, 0⟩, ⟨[], [], [], []⟩⟩ ∧
    compute_classification_metrics (some []) cap =
      ⟨0, 0, 0, 0, ⟨0, 0, 0, 0⟩, ⟨[], [], [], []⟩⟩ ∧
    ((compute_classification_metrics (some l) cap).examples.tp.length ≤ cap ∧
     (compute_classification_metrics (some l) cap).examples.tn.length ≤ cap ∧
     (compute_classification_metrics (some l) cap).examples.fp.length ≤ cap ∧
     (compute_classification_metrics (some l) cap).examples.fn.length ≤ cap) ∧
    (List.Sublist (compute_classification_metrics (some l) cap).examples.tp (l.map exampleRowOf) ∧
     List.Sublist (compute_classification_metrics (some l) cap).examples.tn (l.map exampleRowOf) ∧
     List.Sublist (compute_classification_metrics (some l) cap).examples.fp (l.map exampleRowOf) ∧
     List.Sublist (compute_classification_metrics (some l) cap).examples.fn (l.map exampleRowOf)) := by
  refine ⟨rfl, rfl, ?_, ?_⟩ <;>
  · by_cases he : l.isEmpty
    · obtain rfl : l = [] := List.isEmpty_iff.mp he
      refine ⟨?_, ?_, ?_, ?_⟩ <;> simp [compute_classification_metrics, zeroReport]
    · have hne : l.isEmpty = false := by simpa using he
      simp only [compute_classification_metrics, hne, Bool.false_eq_true, if_false]
      exact ⟨by first
        | exact exampleList_length_le l tpMask cap
        | exact exampleList_sublist l tpMask cap,
        by first
        | exact exampleList_length_le l tnMask cap
        | exact exampleList_sublist l tnMask cap,
        by first
        | exact exampleList_length_le l fpMask cap
        | exact exampleList_sublist l fpMask cap,
        by first
        | exact exampleList_length_le l fnMask cap
        | exact exampleList_sublist l fnMask cap⟩

end FAD
